import Mathlib

/-!
# Shallow embedding of the `dfr-io-hat` driver (`src/src/lib.rs`)

The driver talks to a DFRobot IO expansion HAT over I2C.  We embed the
device side as an oracle (`I2cDev`): the byte each register returns on a
byte read, the data block the device offers on a block read, and
transport-failure injection per register.  Every driver operation is a
pure function from the oracle to an `Outcome` (normal return, recoverable
I/O error, or a Rust panic from `assert!` / out-of-bounds indexing)
paired with the ordered trace of bus transactions it attempted.

Rust `f32` arithmetic is modelled as exact rational arithmetic (`ℚ`);
the cast `as u16` is truncation toward zero with saturation, as Rust
defines float-to-integer `as` casts.
-/

/-- `enum Channel` from the source: the four PWM/ADC channels. -/
inductive Channel
  | ch0
  | ch1
  | ch2
  | ch3
deriving DecidableEq

/-- `enum Register` from the source: named byte offsets into the board's
address space, plus the two expected identity constants. -/
inductive Register
  | SlaveAddr
  | PID
  | VID
  | PwmCtrl
  | PwmFreq
  | PwmDuty0
  | PwmDuty1
  | PwmDuty2
  | PwmDuty3
  | AdcCtrl
  | AdcCh0
  | AdcCh1
  | AdcCh2
  | AdcCh3
  | DefPID
  | DefVID
deriving DecidableEq

/-- The numeric discriminant of each `Register` variant (`reg as u8`). -/
def Register.val : Register → Nat
  | .SlaveAddr => 0x00
  | .PID => 0x01
  | .VID => 0x02
  | .PwmCtrl => 0x03
  | .PwmFreq => 0x04
  | .PwmDuty0 => 0x06
  | .PwmDuty1 => 0x08
  | .PwmDuty2 => 0x0A
  | .PwmDuty3 => 0x0C
  | .AdcCtrl => 0x0E
  | .AdcCh0 => 0x0F
  | .AdcCh1 => 0x11
  | .AdcCh2 => 0x13
  | .AdcCh3 => 0x15
  | .DefPID => 0xDF
  | .DefVID => 0x10

/-- `enum BoardError` from the source, together with the transport
(`std::io::Error`) case: the error taxonomy an operation can return. -/
inductive DriverError
  | transport
  | deviceNotDetected
  | softVersion
deriving DecidableEq

/-- Result of running one driver operation: a normal return, a
recoverable error (`Err(..)` in Rust), or a Rust panic
(failed `assert!` or out-of-bounds slice index). -/
inductive Outcome (α : Type)
  | ok (a : α)
  | err (e : DriverError)
  | panicked
deriving DecidableEq

/-- One attempted bus transaction, as seen on the wire: the register
byte and, for block operations, the data involved.  `readBlockEv`
records the length of the caller-supplied buffer handed to the bus
layer. -/
inductive Event
  | readByteEv (reg : Nat)
  | readBlockEv (reg : Nat) (bufLen : Nat)
  | writeBlockEv (reg : Nat) (bytes : List Nat)
deriving DecidableEq

/-- The device/transport oracle: `byteAt reg` is the byte the device
answers to a byte read of `reg`, `blockAt reg` the data block it offers
to a block read of `reg`; `failRead`/`failWrite` inject transport
failures per register, and `openFail` makes opening/addressing the bus
itself fail. -/
structure I2cDev where
  byteAt : Nat → Nat
  blockAt : Nat → List Nat
  failRead : Nat → Bool
  failWrite : Nat → Bool
  openFail : Bool

/-- `struct DfrIoHat`: the board session, owning its bus handle. -/
structure DfrIoHat where
  dev : I2cDev

/-- Sequencing with Rust's `?` operator: run `x`; on `Ok` feed the value
to `f` and append the traces, on `Err` or panic stop with the trace so
far. -/
def andThen {α β : Type} (x : Outcome α × List Event)
    (f : α → Outcome β × List Event) : Outcome β × List Event :=
  match x with
  | (.ok a, tr) =>
    let r := f a
    (r.1, tr ++ r.2)
  | (.err e, tr) => (.err e, tr)
  | (.panicked, tr) => (.panicked, tr)

/-- Rust's saturating float-to-integer cast `as u16`, on the exact
rational value: truncation toward zero, clamped to `[0, 65535]`. -/
def f32_as_u16 (x : ℚ) : Nat :=
  if x < 0 then 0 else min (Int.toNat ⌊x⌋) 65535

/-- `DfrIoHat::read_byte`: `smbus_read_byte_data(reg as u8)`. -/
def read_byte (dev : I2cDev) (reg : Register) : Outcome Nat × List Event :=
  if dev.failRead reg.val then (.err .transport, [.readByteEv reg.val])
  else (.ok (dev.byteAt reg.val % 256), [.readByteEv reg.val])

/-- Modelled from the `i2c-linux` crate (an external collaborator, not
part of this repository):
`smbus_read_block_data(&mut self, command: u8, value: &mut [u8]) -> io::Result<usize>`
fills at most `value.len()` bytes of the caller's buffer with the data
block offered by the device and returns the number of bytes written
together with the updated buffer contents. -/
def smbus_read_block_data (dev : I2cDev) (reg : Nat) (buf : List Nat) :
    Outcome (Nat × List Nat) × List Event :=
  if dev.failRead reg then (.err .transport, [.readBlockEv reg buf.length])
  else
    let data := ((dev.blockAt reg).map (· % 256)).take buf.length
    (.ok (data.length, data ++ buf.drop data.length), [.readBlockEv reg buf.length])

/-- `DfrIoHat::read_bytes`: allocates `Vec::with_capacity(count)` — a
vector of **length 0** (capacity is not length) — hands it to
`smbus_read_block_data` as a `&mut [u8]` slice, ignores the returned
byte count, and returns the vector.  The `count` argument only sizes the
allocation and never reaches the bus layer. -/
def read_bytes (dev : I2cDev) (reg : Register) (count : Nat) :
    Outcome (List Nat) × List Event :=
  let _ := count
  let buf : List Nat := []
  andThen (smbus_read_block_data dev reg.val buf) fun r => (.ok r.2, [])

/-- `DfrIoHat::write_bytes`: `smbus_write_block_data(reg as u8, bytes)`.
The write attempt is on the wire whether or not the transport reports
failure, so the event is recorded in both cases. -/
def write_bytes (dev : I2cDev) (reg : Register) (bytes : List Nat) :
    Outcome Unit × List Event :=
  if dev.failWrite reg.val then (.err .transport, [.writeBlockEv reg.val bytes])
  else (.ok (), [.writeBlockEv reg.val bytes])

/-- `Channel::all()`: the fixed array of the four channels. -/
def Channel.all : List Channel :=
  [.ch0, .ch1, .ch2, .ch3]

/-- `DfrIoHat::enable_pwm`. -/
def enable_pwm (dev : I2cDev) (enable : Bool) : Outcome Unit × List Event :=
  if enable then write_bytes dev .PwmCtrl [0x01]
  else write_bytes dev .PwmCtrl [0x00]

/-- `DfrIoHat::enable_adc`. -/
def enable_adc (dev : I2cDev) (enable : Bool) : Outcome Unit × List Event :=
  if enable then write_bytes dev .AdcCtrl [0x01]
  else write_bytes dev .AdcCtrl [0x00]

/-- `DfrIoHat::set_pwm_duty`: two `assert!` range checks (a failed
assertion is a panic, before any bus traffic), then
`let duty = (duty * 1e2) as u16;`
`let bytes = [duty as u8, ((duty * 10) % 10) as u8];`
and one block write to the selected channel's duty register. -/
def set_pwm_duty (dev : I2cDev) (channel : Channel) (duty : ℚ) :
    Outcome Unit × List Event :=
  if 0 ≤ duty then
    if duty ≤ 1 then
      let d := f32_as_u16 (duty * 100)
      let bytes := [d % 256, d * 10 % 10 % 256]
      match channel with
      | .ch0 => write_bytes dev .PwmDuty0 bytes
      | .ch1 => write_bytes dev .PwmDuty1 bytes
      | .ch2 => write_bytes dev .PwmDuty2 bytes
      | .ch3 => write_bytes dev .PwmDuty3 bytes
    else (.panicked, [])
  else (.panicked, [])

/-- The duty register selected by `set_pwm_duty`'s `match channel`. -/
def Channel.dutyReg : Channel → Register
  | .ch0 => .PwmDuty0
  | .ch1 => .PwmDuty1
  | .ch2 => .PwmDuty2
  | .ch3 => .PwmDuty3

/-- `DfrIoHat::set_pwm_freq`: two `assert!` range checks, then one block
write of `freq.to_be_bytes()` to the frequency register.  `freq` is a
`u16`, so values are below `65536`. -/
def set_pwm_freq (dev : I2cDev) (freq : Nat) : Outcome Unit × List Event :=
  if 1 ≤ freq then
    if freq ≤ 1000 then
      write_bytes dev .PwmFreq [freq / 256 % 256, freq % 256]
    else (.panicked, [])
  else (.panicked, [])

/-- The `for ch in Channel::all()` loop body of `DfrIoHat::reset`:
`self.set_pwm_duty(ch, 0.0)?` for each channel in turn. -/
def resetDutyLoop (dev : I2cDev) : List Channel → Outcome Unit × List Event
  | [] => (.ok (), [])
  | ch :: rest => andThen (set_pwm_duty dev ch 0) fun _ => resetDutyLoop dev rest

/-- `DfrIoHat::reset`: disable PWM, zero every channel's duty, disable
ADC, each step early-returning on transport failure. -/
def reset (dev : I2cDev) : Outcome Unit × List Event :=
  andThen (enable_pwm dev false) fun _ =>
  andThen (resetDutyLoop dev Channel.all) fun _ =>
  andThen (enable_adc dev false) fun _ => (.ok (), [])

/-- `impl Drop for DfrIoHat`: `let _ = self.reset();` — the reset is
attempted and its `Result` is discarded, so teardown never returns an
error. -/
def dropHat (dev : I2cDev) : Unit × List Event :=
  let r := reset dev
  ((), r.2)

/-- `DfrIoHat::begin`: read the product-ID byte, read the vendor-ID
byte, then check them in order against `DefPID`/`DefVID`, and finally
reset the board. -/
def beginHat (dev : I2cDev) : Outcome Unit × List Event :=
  andThen (read_byte dev .PID) fun pid =>
  andThen (read_byte dev .VID) fun vid =>
  if pid ≠ Register.DefPID.val then (.err .deviceNotDetected, [])
  else if vid ≠ Register.DefVID.val then (.err .softVersion, [])
  else andThen (reset dev) fun _ => (.ok (), [])

/-- `DfrIoHat::open`: open and address the bus, build the `hat` value,
run `begin`.  If `begin` fails (or panics while unwinding), the local
`hat` is dropped before `open` returns, so `Drop::drop` — a discarded
`reset` — runs against the device; on success the hat is moved out and
no drop occurs. -/
def openHat (dev : I2cDev) : Outcome DfrIoHat × List Event :=
  if dev.openFail then (.err .transport, [])
  else
    match beginHat dev with
    | (.ok _, tr) => (.ok ⟨dev⟩, tr)
    | (.err e, tr) => (.err e, tr ++ (dropHat dev).2)
    | (.panicked, tr) => (.panicked, tr ++ (dropHat dev).2)

/-- `DfrIoHat::get_adc_value`: one block read of the channel's value
register via `read_bytes(reg, 2)`, then
`u16::from_be_bytes([bytes[0], bytes[1]])` — the two indexing
operations panic when the returned buffer is shorter than 2. -/
def get_adc_value (dev : I2cDev) (channel : Channel) :
    Outcome Nat × List Event :=
  andThen
    (match channel with
     | .ch0 => read_bytes dev .AdcCh0 2
     | .ch1 => read_bytes dev .AdcCh1 2
     | .ch2 => read_bytes dev .AdcCh2 2
     | .ch3 => read_bytes dev .AdcCh3 2) fun bytes =>
  match bytes with
  | b0 :: b1 :: _ => (.ok (b0 * 256 + b1), [])
  | _ => (.panicked, [])

/-- A device oracle on which every transport operation succeeds and
every register reads as zero. -/
def okDev : I2cDev where
  byteAt := fun _ => 0
  blockAt := fun _ => []
  failRead := fun _ => false
  failWrite := fun _ => false
  openFail := false

/-- A healthy device whose ADC block data is `[0x03, 0xFF]`. -/
def adcDev : I2cDev :=
  { okDev with
    byteAt := fun r => if r = 1 then 0xDF else if r = 2 then 0x10 else 0
    blockAt := fun _ => [0x03, 0xFF] }

/-- A device answering a wrong product-ID byte (`0x00`) but the correct
vendor-ID byte, all transports succeeding. -/
def badPidDev : I2cDev :=
  { okDev with byteAt := fun r => if r = 2 then 0x10 else 0 }

/-- A device whose write to the PWM control register fails at the
transport level. -/
def failCtrlDev : I2cDev := { okDev with failWrite := fun r => r == 0x03 }

theorem write_bytes_trace (dev : I2cDev) (reg : Register) (bytes : List Nat) :
    (write_bytes dev reg bytes).2 = [Event.writeBlockEv reg.val bytes] := by
  unfold write_bytes
  split <;> rfl

/-- A driver step that returns `Unit` either succeeds or reports a
transport error: it never panics and never returns a board-identity
error. -/
def OkOrTransport (x : Outcome Unit × List Event) : Prop :=
  x.1 = Outcome.ok () ∨ x.1 = Outcome.err DriverError.transport

theorem write_bytes_okOrTransport (dev : I2cDev) (reg : Register) (bytes : List Nat) :
    OkOrTransport (write_bytes dev reg bytes) := by
  unfold OkOrTransport write_bytes
  split <;> simp

theorem andThen_okOrTransport (x : Outcome Unit × List Event)
    (f : Unit → Outcome Unit × List Event)
    (hx : OkOrTransport x) (hf : OkOrTransport (f ())) :
    OkOrTransport (andThen x f) := by
  obtain ⟨o, tr⟩ := x
  cases o with
  | ok a =>
    cases a
    simpa [OkOrTransport, andThen] using hf
  | err e =>
    have he : e = DriverError.transport := by
      rcases hx with h | h
      · exact absurd h (by simp)
      · simpa using h
    subst he
    simp [OkOrTransport, andThen]
  | panicked =>
    rcases hx with h | h <;> simp [OkOrTransport] at h

theorem set_pwm_duty_in_range (dev : I2cDev) (ch : Channel) (duty : ℚ)
    (h0 : 0 ≤ duty) (h1 : duty ≤ 1) :
    set_pwm_duty dev ch duty =
      write_bytes dev ch.dutyReg [Int.toNat ⌊duty * 100⌋ % 256, 0] := by
  have hx0 : (0 : ℚ) ≤ duty * 100 := mul_nonneg h0 (by norm_num)
  have h100 : ⌊duty * 100⌋ ≤ 100 := by
    have h' : duty * 100 ≤ 100 := by linarith
    calc ⌊duty * 100⌋ ≤ ⌊(100 : ℚ)⌋ := Int.floor_le_floor h'
      _ = 100 := by norm_num
  have hd : f32_as_u16 (duty * 100) = Int.toNat ⌊duty * 100⌋ := by
    unfold f32_as_u16
    rw [if_neg (not_lt.mpr hx0)]
    exact min_eq_left (by omega)
  have hz : Int.toNat ⌊duty * 100⌋ * 10 % 10 % 256 = 0 := by
    simp [Nat.mul_mod_left]
  unfold set_pwm_duty
  rw [if_pos h0, if_pos h1]
  cases ch <;> simp [Channel.dutyReg, hd, hz]

theorem set_pwm_duty_zero (dev : I2cDev) (ch : Channel) :
    set_pwm_duty dev ch 0 = write_bytes dev ch.dutyReg [0, 0] := by
  have h := set_pwm_duty_in_range dev ch 0 le_rfl zero_le_one
  simpa using h

theorem resetDutyLoop_okOrTransport (dev : I2cDev) (chs : List Channel) :
    OkOrTransport (resetDutyLoop dev chs) := by
  induction chs with
  | nil => simp [OkOrTransport, resetDutyLoop]
  | cons ch rest ih =>
    simp only [resetDutyLoop]
    refine andThen_okOrTransport _ _ ?_ ih
    rw [set_pwm_duty_zero]
    exact write_bytes_okOrTransport _ _ _

theorem reset_okOrTransport (dev : I2cDev) : OkOrTransport (reset dev) := by
  unfold reset
  refine andThen_okOrTransport _ _ (write_bytes_okOrTransport _ _ _) ?_
  refine andThen_okOrTransport _ _ (resetDutyLoop_okOrTransport _ _) ?_
  exact andThen_okOrTransport _ _ (write_bytes_okOrTransport _ _ _) (Or.inl rfl)

theorem reset_noFail (dev : I2cDev)
    (h3 : dev.failWrite 0x03 = false) (h6 : dev.failWrite 0x06 = false)
    (h8 : dev.failWrite 0x08 = false) (hA : dev.failWrite 0x0A = false)
    (hC : dev.failWrite 0x0C = false) (hE : dev.failWrite 0x0E = false) :
    reset dev = (Outcome.ok (),
      [Event.writeBlockEv 0x03 [0x00], Event.writeBlockEv 0x06 [0, 0],
       Event.writeBlockEv 0x08 [0, 0], Event.writeBlockEv 0x0A [0, 0],
       Event.writeBlockEv 0x0C [0, 0], Event.writeBlockEv 0x0E [0x00]]) := by
  simp [reset, resetDutyLoop, Channel.all, set_pwm_duty_zero, Channel.dutyReg,
    enable_pwm, enable_adc, write_bytes, Register.val, andThen, h3, h6, h8, hA, hC, hE]

/-- C1: for every duty in `[0, 1]`, `set_pwm_duty` emits exactly the
2-byte block `[⌊duty*100⌋ mod 256, (⌊duty*100⌋*10) mod 10]` to the
selected channel's duty register, and the second byte is always `0`. -/
theorem set_pwm_duty_encoding (dev : I2cDev) (ch : Channel) (duty : ℚ)
    (h0 : 0 ≤ duty) (h1 : duty ≤ 1) :
    (set_pwm_duty dev ch duty).2 =
      [Event.writeBlockEv ch.dutyReg.val
        [Int.toNat ⌊duty * 100⌋ % 256, Int.toNat ⌊duty * 100⌋ * 10 % 10]] ∧
    Int.toNat ⌊duty * 100⌋ * 10 % 10 = 0 := by
  have hz : Int.toNat ⌊duty * 100⌋ * 10 % 10 = 0 := Nat.mul_mod_left _ _
  refine ⟨?_, hz⟩
  rw [set_pwm_duty_in_range dev ch duty h0 h1, write_bytes_trace, hz]

/-- Witness for C1 at `duty = 1/2`, channel 0: the emitted block is
`[50, 0]` at register `0x06`. -/
theorem set_pwm_duty_encoding_witness :
    (set_pwm_duty okDev Channel.ch0 (1 / 2)).2 = [Event.writeBlockEv 0x06 [50, 0]] := by
  have h := set_pwm_duty_encoding okDev Channel.ch0 (1 / 2) (by norm_num) (by norm_num)
  rw [h.1]
  norm_num [Channel.dutyReg, Register.val]
  decide

/-- C2 (code bug): on a healthy device offering ADC block data
`[0x03, 0xFF]` with every transport operation succeeding,
`get_adc_value` hands the bus layer a zero-length buffer (the block-read
event records buffer length `0`), gets nothing back, and panics indexing
`bytes[0]` — it never successfully reads or decodes two bytes. -/
theorem get_adc_value_phantom_read :
    get_adc_value adcDev Channel.ch0 =
      (Outcome.panicked, [Event.readBlockEv 0x0F 0]) := rfl

/-- C9 (code bug): `read_bytes` called with `count = 2` hands the bus
layer a buffer of length `0` (`Vec::with_capacity` sets capacity, not
length) and returns an empty buffer, not one of length 2. -/
theorem read_bytes_capacity_bug :
    read_bytes adcDev Register.AdcCh0 2 =
      (Outcome.ok [], [Event.readBlockEv 0x0F 0]) := rfl

/-- C5: for `freq` outside `[1, 1000]` `set_pwm_freq` panics before any
bus write, and for `duty` outside `[0, 1]` `set_pwm_duty` panics before
any bus write: the outcome is a panic and the transaction trace is
empty, so nothing clamped or coerced reaches the bus. -/
theorem out_of_range_panics (dev : I2cDev) (freq : Nat) (ch : Channel) (duty : ℚ)
    (hf : freq < 1 ∨ 1000 < freq) (hd : duty < 0 ∨ 1 < duty) :
    set_pwm_freq dev freq = (Outcome.panicked, []) ∧
    set_pwm_duty dev ch duty = (Outcome.panicked, []) := by
  constructor
  · rcases hf with h | h
    · unfold set_pwm_freq
      rw [if_neg (by omega)]
    · unfold set_pwm_freq
      rw [if_pos (by omega), if_neg (by omega)]
  · rcases hd with h | h
    · unfold set_pwm_duty
      rw [if_neg (not_le.mpr h)]
    · unfold set_pwm_duty
      rw [if_pos (by linarith), if_neg (not_le.mpr h)]

/-- Witness for C5 at `freq = 1001` and `duty = 3/2`: both calls panic
with an empty transaction trace. -/
theorem out_of_range_panics_witness :
    set_pwm_freq okDev 1001 = (Outcome.panicked, []) ∧
    set_pwm_duty okDev Channel.ch0 (3 / 2) = (Outcome.panicked, []) :=
  out_of_range_panics okDev 1001 Channel.ch0 (3 / 2)
    (Or.inr (by norm_num)) (Or.inr (by norm_num))

/-- C8: for every `freq` in `[1, 1000]`, `set_pwm_freq` issues exactly
one 2-byte block write to the PWM frequency register (`0x04`) carrying
the big-endian 16-bit representation of `freq`. -/
theorem set_pwm_freq_encoding (dev : I2cDev) (freq : Nat)
    (h1 : 1 ≤ freq) (h2 : freq ≤ 1000) :
    (set_pwm_freq dev freq).2 =
      [Event.writeBlockEv 0x04 [freq / 256, freq % 256]] := by
  unfold set_pwm_freq
  rw [if_pos h1, if_pos h2, write_bytes_trace,
    Nat.mod_eq_of_lt (show freq / 256 < 256 by omega)]
  rfl

/-- Witness for C8 at `freq = 1000`: the emitted block is
`[0x03, 0xE8]`. -/
theorem set_pwm_freq_encoding_witness :
    (set_pwm_freq okDev 1000).2 = [Event.writeBlockEv 0x04 [0x03, 0xE8]] := by
  have h := set_pwm_freq_encoding okDev 1000 (by norm_num) (by norm_num)
  simpa using h

/-- C10: `Channel.all` is exactly `[ch0, ch1, ch2, ch3]`, each channel
appearing exactly once, and every channel is in it; being a constant,
it is the same on every call. -/
theorem channel_all_complete :
    Channel.all = [Channel.ch0, Channel.ch1, Channel.ch2, Channel.ch3] ∧
    Channel.all.Nodup ∧ ∀ c : Channel, c ∈ Channel.all := by
  refine ⟨rfl, by decide, fun c => by cases c <;> decide⟩

/-- C3 (counterexample): with a device answering a wrong product-ID byte
and every transport operation succeeding, `open` does fail with
`DeviceNotDetected`, but the vendor-ID register (`0x02`) **is** read and
a reset write (`0x00` to the PWM control register `0x03`) **is** issued
to the device — contradicting "the vendor-ID register is not read and no
reset register writes are issued". -/
theorem open_badpid_counterexample :
    (openHat badPidDev).1 = Outcome.err DriverError.deviceNotDetected ∧
    Event.readByteEv 0x02 ∈ (openHat badPidDev).2 ∧
    Event.writeBlockEv 0x03 [0x00] ∈ (openHat badPidDev).2 := by
  have htr : (openHat badPidDev).2 =
      [Event.readByteEv 0x01, Event.readByteEv 0x02] ++ (reset badPidDev).2 := rfl
  have hr : reset badPidDev = (Outcome.ok (),
      [Event.writeBlockEv 0x03 [0x00], Event.writeBlockEv 0x06 [0, 0],
       Event.writeBlockEv 0x08 [0, 0], Event.writeBlockEv 0x0A [0, 0],
       Event.writeBlockEv 0x0C [0, 0], Event.writeBlockEv 0x0E [0x00]]) :=
    reset_noFail badPidDev rfl rfl rfl rfl rfl rfl
  refine ⟨rfl, ?_, ?_⟩ <;> rw [htr, hr] <;> simp

/-- C3 (amended): during `open` on a device whose product-ID byte is not
`0xDF` (both identity reads succeeding at the transport level), the open
attempt fails with `DeviceNotDetected` and `begin` itself issues nothing
beyond the two identity reads — but the vendor-ID register is read
before the product-ID check, and dropping the failed session then issues
the reset register writes, so the full wire trace is the two identity
reads followed by the reset sequence. -/
theorem open_badpid_amended (dev : I2cDev) (hO : dev.openFail = false)
    (hP : dev.failRead 0x01 = false) (hV : dev.failRead 0x02 = false)
    (hpid : dev.byteAt 0x01 % 256 ≠ 0xDF) :
    (openHat dev).1 = Outcome.err DriverError.deviceNotDetected ∧
    (openHat dev).2 =
      [Event.readByteEv 0x01, Event.readByteEv 0x02] ++ (reset dev).2 := by
  have hb : beginHat dev = (Outcome.err DriverError.deviceNotDetected,
      [Event.readByteEv 0x01, Event.readByteEv 0x02]) := by
    simp [beginHat, read_byte, Register.val, hP, hV, andThen, hpid]
  simp [openHat, hO, hb, dropHat]

/-- Witness for the amended C3 on the concrete device `badPidDev`. -/
theorem open_badpid_amended_witness :
    (openHat badPidDev).1 = Outcome.err DriverError.deviceNotDetected ∧
    (openHat badPidDev).2 =
      [Event.readByteEv 0x01, Event.readByteEv 0x02] ++ (reset badPidDev).2 :=
  open_badpid_amended badPidDev rfl rfl rfl (by decide)

/-- C4: when both identity reads succeed at the transport level, `open`
returns `DeviceNotDetected` exactly when the product-ID byte differs
from `0xDF`, returns `SoftwareVersionMismatch` (`SoftVersion`) exactly
when the product-ID byte is `0xDF` and the vendor-ID byte differs from
`0x10`, and in either mismatch case the result is an error, never a
session value. -/
theorem open_identity_errors (dev : I2cDev) (hO : dev.openFail = false)
    (hP : dev.failRead 0x01 = false) (hV : dev.failRead 0x02 = false) :
    ((openHat dev).1 = Outcome.err DriverError.deviceNotDetected ↔
      dev.byteAt 0x01 % 256 ≠ 0xDF) ∧
    ((openHat dev).1 = Outcome.err DriverError.softVersion ↔
      (dev.byteAt 0x01 % 256 = 0xDF ∧ dev.byteAt 0x02 % 256 ≠ 0x10)) ∧
    ((dev.byteAt 0x01 % 256 ≠ 0xDF ∨ dev.byteAt 0x02 % 256 ≠ 0x10) →
      ∀ hat : DfrIoHat, (openHat dev).1 ≠ Outcome.ok hat) := by
  by_cases hpid : dev.byteAt 0x01 % 256 = 0xDF
  · by_cases hvid : dev.byteAt 0x02 % 256 = 0x10
    · rcases hres : reset dev with ⟨ro, rtr⟩
      have hro := reset_okOrTransport dev
      rw [OkOrTransport, hres] at hro
      simp only at hro
      rcases hro with h | h <;> subst h <;>
        simp [openHat, hO, beginHat, read_byte, Register.val, hP, hV, andThen,
          hpid, hvid, hres]
    · have hb : beginHat dev = (Outcome.err DriverError.softVersion,
          [Event.readByteEv 0x01, Event.readByteEv 0x02]) := by
        simp [beginHat, read_byte, Register.val, hP, hV, andThen, hpid, hvid]
      simp [openHat, hO, hb, hpid, hvid]
  · have hb : beginHat dev = (Outcome.err DriverError.deviceNotDetected,
        [Event.readByteEv 0x01, Event.readByteEv 0x02]) := by
      simp [beginHat, read_byte, Register.val, hP, hV, andThen, hpid]
    simp [openHat, hO, hb, hpid]

/-- Witness for C4 on the concrete device `badPidDev` (wrong product-ID,
correct vendor-ID, all transports succeeding). -/
theorem open_identity_errors_witness :
    ((openHat badPidDev).1 = Outcome.err DriverError.deviceNotDetected ↔
      badPidDev.byteAt 0x01 % 256 ≠ 0xDF) ∧
    ((openHat badPidDev).1 = Outcome.err DriverError.softVersion ↔
      (badPidDev.byteAt 0x01 % 256 = 0xDF ∧ badPidDev.byteAt 0x02 % 256 ≠ 0x10)) ∧
    ((badPidDev.byteAt 0x01 % 256 ≠ 0xDF ∨ badPidDev.byteAt 0x02 % 256 ≠ 0x10) →
      ∀ hat : DfrIoHat, (openHat badPidDev).1 ≠ Outcome.ok hat) :=
  open_identity_errors badPidDev rfl rfl rfl

/-- C6: a successful `reset` issues exactly, in order: `0x00` to the PWM
control register (`0x03`), the block `[0, 0]` to each of the four duty
registers (`0x06`, `0x08`, `0x0A`, `0x0C`), and `0x00` to the ADC
control register (`0x0E`); in particular the PWM-disable write precedes
every duty write. -/
theorem reset_write_sequence (dev : I2cDev) (h : (reset dev).1 = Outcome.ok ()) :
    (reset dev).2 =
      [Event.writeBlockEv 0x03 [0x00], Event.writeBlockEv 0x06 [0, 0],
       Event.writeBlockEv 0x08 [0, 0], Event.writeBlockEv 0x0A [0, 0],
       Event.writeBlockEv 0x0C [0, 0], Event.writeBlockEv 0x0E [0x00]] := by
  cases h3 : dev.failWrite 0x03 with
  | true =>
    simp [reset, enable_pwm, write_bytes, Register.val, andThen, h3] at h
  | false =>
  cases h6 : dev.failWrite 0x06 with
  | true =>
    simp [reset, resetDutyLoop, Channel.all, set_pwm_duty_zero, Channel.dutyReg,
      enable_pwm, write_bytes, Register.val, andThen, h3, h6] at h
  | false =>
  cases h8 : dev.failWrite 0x08 with
  | true =>
    simp [reset, resetDutyLoop, Channel.all, set_pwm_duty_zero, Channel.dutyReg,
      enable_pwm, write_bytes, Register.val, andThen, h3, h6, h8] at h
  | false =>
  cases hA : dev.failWrite 0x0A with
  | true =>
    simp [reset, resetDutyLoop, Channel.all, set_pwm_duty_zero, Channel.dutyReg,
      enable_pwm, write_bytes, Register.val, andThen, h3, h6, h8, hA] at h
  | false =>
  cases hC : dev.failWrite 0x0C with
  | true =>
    simp [reset, resetDutyLoop, Channel.all, set_pwm_duty_zero, Channel.dutyReg,
      enable_pwm, write_bytes, Register.val, andThen, h3, h6, h8, hA, hC] at h
  | false =>
  cases hE : dev.failWrite 0x0E with
  | true =>
    simp [reset, resetDutyLoop, Channel.all, set_pwm_duty_zero, Channel.dutyReg,
      enable_pwm, enable_adc, write_bytes, Register.val, andThen,
      h3, h6, h8, hA, hC, hE] at h
  | false =>
    rw [reset_noFail dev h3 h6 h8 hA hC hE]

/-- Witness for C6 on `okDev`, where every write succeeds. -/
theorem reset_write_sequence_witness :
    (reset okDev).2 =
      [Event.writeBlockEv 0x03 [0x00], Event.writeBlockEv 0x06 [0, 0],
       Event.writeBlockEv 0x08 [0, 0], Event.writeBlockEv 0x0A [0, 0],
       Event.writeBlockEv 0x0C [0, 0], Event.writeBlockEv 0x0E [0x00]] :=
  reset_write_sequence okDev
    (by rw [reset_noFail okDev rfl rfl rfl rfl rfl rfl])

/-- C7: teardown (`Drop`) runs the very same register-write sequence as
an explicit `reset` — its wire trace equals `reset`'s on every device —
and returns plain `Unit`, so a transport error during the teardown reset
(here: the first control write failing on `failCtrlDev`) is discarded
rather than propagated. -/
theorem drop_discards_reset_errors (dev : I2cDev) :
    dropHat dev = ((), (reset dev).2) ∧
    (reset failCtrlDev).1 = Outcome.err DriverError.transport ∧
    dropHat failCtrlDev = ((), [Event.writeBlockEv 0x03 [0x00]]) := by
  have hfc : reset failCtrlDev =
      (Outcome.err DriverError.transport, [Event.writeBlockEv 0x03 [0x00]]) := by
    simp [reset, enable_pwm, write_bytes, Register.val, andThen, failCtrlDev, okDev]
  exact ⟨rfl, by rw [hfc], by simp [dropHat, hfc]⟩
